import Mathlib

/-!
Student admin console: session handling and form guards.

A shallow embedding of the view controllers of the React client
(`Login.jsx`, `Register.jsx`, `Dashboard.jsx`, `EditStudent.jsx`).

Modelling conventions.

* JavaScript values that travel through the controllers (parsed JSON bodies,
  form drafts, cookie reads) are `JsVal`. Numbers are the integer-valued ones;
  strings are Lean strings.
* The cookie jar of `js-cookie` and `sessionStorage` are a record `Store` of
  optional strings: an entry that was written reads back as written, an entry
  that was removed or never written reads back as `undefined` / `null`.
  Cookie expiry and the `secure` attribute are not modelled.
* An `async` handler is a function of the answer the network gives to the one
  request it may issue (`FetchResult`); it returns the component state, the
  store and the ordered list of outside effects it performed. Dialogs are
  taken to be acknowledged, so the continuation behind a dialog has run.
* `BASE_URL` (a build-time setting) and the clock are parameters.
-/

/-- JavaScript values as they occur in the client. -/
inductive JsVal where
  | undefined
  | null
  | bool (b : Bool)
  | num (n : Int)
  | str (s : String)
  | arr (items : List JsVal)
  | obj (fields : List (String × JsVal))

namespace JsVal

/-- Truthiness (`!!v`). -/
def truthy : JsVal → Bool
  | undefined => false
  | null => false
  | bool b => b
  | num n => n != 0
  | str s => s != ""
  | arr _ => true
  | obj _ => true

/-- Logical negation `!v`. -/
def falsy (v : JsVal) : Bool := !v.truthy

/-- The operator `a || b`. -/
def or (a b : JsVal) : JsVal := if a.truthy then a else b

mutual
/-- String conversion (`String(v)`, template literals, cookie and storage writes). -/
def toStr : JsVal → String
  | undefined => "undefined"
  | null => "null"
  | bool b => if b then "true" else "false"
  | num n => toString n
  | str s => s
  | arr items => joinItems items
  | obj _ => "[object Object]"
termination_by structural v => v
/-- Array stringification: items joined by commas, nullish items empty. -/
def joinItems : List JsVal → String
  | [] => ""
  | x :: rest =>
    (match x with
      | undefined => ""
      | null => ""
      | v => toStr v)
    ++ (match rest with
      | [] => ""
      | _ => ",")
    ++ joinItems rest
termination_by structural l => l
end

/-- Property read `v.key`: a `TypeError` on `null` and `undefined`, the field of
an object (absent fields read as `undefined`), `undefined` on other values.
The error carries the message text. -/
def getProp (v : JsVal) (key : String) : Except String JsVal :=
  match v with
  | undefined => .error ("Cannot read properties of undefined (reading " ++ key ++ ")")
  | null => .error ("Cannot read properties of null (reading " ++ key ++ ")")
  | obj fields => .ok ((fields.lookup key).getD undefined)
  | _ => .ok undefined

/-- The value of `Cookies.get(name)` or `sessionStorage.getItem(name)` as held
by a render: a string when the entry exists, nullish otherwise. -/
def ofEntry : Option String → JsVal
  | some s => str s
  | none => undefined

end JsVal

/-- Number of UTF-16 code units of a string: the value of `.length`. -/
def jsLength (s : String) : Nat :=
  (s.data.map (fun c => if c.val.toNat < 65536 then 1 else 2)).sum

/-- Client-side persisted state: three cookies and one `sessionStorage` entry. -/
structure Store where
  access_token : Option String
  admin_id : Option String
  token_expiry : Option String
  username : Option String
deriving DecidableEq, Repr

/-- The store of a browser that never logged in. -/
def Store.empty : Store :=
  { access_token := none, admin_id := none, token_expiry := none, username := none }

/-- Body handed to `fetch`. -/
inductive Payload where
  | empty
  | form (entries : List (String × String))
  | json (value : JsVal)

/-- One call of `fetch`. -/
structure Request where
  method : String
  url : String
  headers : List (String × String)
  body : Payload

/-- What the network answers: `fetch` rejects, or a response with a status
whose `json()` either rejects or yields a value. -/
inductive FetchResult where
  | rejected (message : String)
  | response (status : Nat) (body : Except String JsVal)

/-- The flag `response.ok`. -/
def statusOk (status : Nat) : Bool := 200 ≤ status && status ≤ 299

/-- Outside effects of a handler, in the order performed. -/
inductive Effect where
  | fetch (req : Request)
  | swal (icon title : String) (text : JsVal)
  | alert (text : String)
  | navigate (target : String)
  | setLoading (b : Bool)
  | consoleError (label : String)

/-- The requests among a list of effects. -/
def requestsOf : List Effect → List Request
  | [] => []
  | .fetch r :: rest => r :: requestsOf rest
  | _ :: rest => requestsOf rest

/-- The navigation targets among a list of effects. -/
def navigationsOf : List Effect → List String
  | [] => []
  | .navigate target :: rest => target :: navigationsOf rest
  | _ :: rest => navigationsOf rest

/-- The values passed to `setLoading` among a list of effects. -/
def loadingWritesOf : List Effect → List Bool
  | [] => []
  | .setLoading b :: rest => b :: loadingWritesOf rest
  | _ :: rest => loadingWritesOf rest

/-- Result of running a handler: component state, store, effects. -/
structure Outcome (σ : Type) where
  state : σ
  store : Store
  effects : List Effect

/-- The `Authorization` header built from the token held by the render. -/
def bearer (store : Store) : String × String :=
  ("Authorization", "Bearer " ++ (JsVal.ofEntry store.access_token).toStr)

/-! ## Login.jsx -/

namespace Login

/-- The `formData` state. -/
structure FormData where
  username : String
  password : String
deriving DecidableEq, Repr

/-- Component state of `Login`. -/
structure State where
  formData : FormData
  loading : Bool
deriving DecidableEq, Repr

/-- The request of `handleSubmit`. -/
def request (base : String) (formData : FormData) : Request :=
  { method := "POST"
    url := base ++ "login"
    headers := [("Content-Type", "application/x-www-form-urlencoded")]
    body := .form [("username", formData.username), ("password", formData.password)] }

/-- The `catch` and `finally` blocks of `handleSubmit`. -/
def failed (st : State) (store : Store) (sofar : List Effect) : Outcome State :=
  { state := { st with loading := false }
    store := store
    effects := sofar ++
      [.consoleError "Login error:", .alert "Something went wrong. Please try again.",
       .setLoading false] }

/-- The submit handler of the login form. `now` is `new Date().getTime()`. -/
def handleSubmit (base : String) (now : Nat) (st : State) (resp : FetchResult)
    (store : Store) : Outcome State :=
  let sofar : List Effect := [.setLoading true, .fetch (request base st.formData)]
  match resp with
  | .rejected _ => failed st store sofar
  | .response _ (.error _) => failed st store sofar
  | .response status (.ok data) =>
    if statusOk status then
      match data.getProp "access_token" with
      | .error _ => failed st store sofar
      | .ok t =>
        let s1 : Store := { store with access_token := some t.toStr }
        match data.getProp "admin_id" with
        | .error _ => failed st s1 sofar
        | .ok a =>
          let s2 : Store := { s1 with admin_id := some a.toStr }
          match data.getProp "username" with
          | .error _ => failed st s2 sofar
          | .ok u =>
            let s3 : Store := { s2 with username := some u.toStr }
            let expiryTime : Nat := now + 24 * 60 * 60 * 1000
            { state := { st with loading := false }
              store := { s3 with token_expiry := some (toString expiryTime) }
              effects := sofar ++ [.navigate "/dashboard", .setLoading false] }
    else
      match data.getProp "detail" with
      | .ok detail =>
        { state := { st with loading := false }
          store := store
          effects := sofar ++
            [.swal "error" "Login Failed" (detail.or (.str "Invalid credentials!")),
             .setLoading false] }
      | .error _ => failed st store sofar

end Login

/-! ## Register.jsx -/

namespace Register

/-- The `formData` state. -/
structure FormData where
  username : String
  email : String
  password : String
  confirmPassword : String
deriving DecidableEq, Repr

/-- Component state of `Register`. -/
structure State where
  formData : FormData
  showPassword : Bool
  showConfirmPassword : Bool
  loading : Bool
deriving DecidableEq, Repr

/-- The request of `handleSubmit`; `confirmPassword` is not part of the body. -/
def request (base : String) (formData : FormData) : Request :=
  { method := "POST"
    url := base ++ "admin"
    headers := [("Content-Type", "application/json"), ("accept", "application/json")]
    body := .json (.obj [("username", .str formData.username), ("email", .str formData.email),
      ("password", .str formData.password)]) }

/-- The `catch` and `finally` blocks of `handleSubmit`. -/
def failed (st : State) (store : Store) (sofar : List Effect) : Outcome State :=
  { state := { st with loading := false }
    store := store
    effects := sofar ++
      [.consoleError "Error during registration:",
       .swal "error" "Oops..." (.str "Something went wrong. Please try again."),
       .setLoading false] }

/-- The submit handler of the registration form. -/
def handleSubmit (base : String) (st : State) (resp : FetchResult) (store : Store) :
    Outcome State :=
  if st.formData.password ≠ st.formData.confirmPassword then
    { state := st, store := store, effects := [.alert "Passwords do not match!"] }
  else if jsLength st.formData.password < 6 then
    { state := st, store := store,
      effects := [.alert "Password must be at least 6 characters long!"] }
  else
    let sofar : List Effect := [.setLoading true, .fetch (request base st.formData)]
    match resp with
    | .rejected _ => failed st store sofar
    | .response _ (.error _) => failed st store sofar
    | .response status (.ok data) =>
      if statusOk status then
        { state := { st with loading := false }
          store := store
          effects := sofar ++
            [.swal "success" "Success!" (.str "Registration successful!"),
             .setLoading false, .navigate "/login"] }
      else
        match data.getProp "detail" with
        | .ok detail =>
          { state := { st with loading := false }
            store := store
            effects := sofar ++
              [.swal "error" "Registration Failed"
                 (detail.or (.str "Registration failed! Try again.")),
               .setLoading false] }
        | .error _ => failed st store sofar

end Register

/-! ## Student drafts (shared shape of `newStudent` and `student`) -/

/-- The draft object held by `Dashboard` (`newStudent`) and `EditStudent` (`student`). -/
structure StudentDraft where
  name : JsVal
  age : JsVal
  address : JsVal
  is_active : JsVal
  percentage_range_id : JsVal

/-- The initial and reset value of a draft. -/
def StudentDraft.blank : StudentDraft :=
  { name := .str "", age := .str "", address := .str "", is_active := .bool true,
    percentage_range_id := .num 0 }

/-- The presence test both forms run before submitting:
`!name || !age || !address || !percentage_range_id`. -/
def StudentDraft.incomplete (d : StudentDraft) : Bool :=
  d.name.falsy || d.age.falsy || d.address.falsy || d.percentage_range_id.falsy

/-- The object sent as request body: the draft fields and `created_id`. -/
def StudentDraft.payload (d : StudentDraft) (adminId : JsVal) : JsVal :=
  .obj [("name", d.name), ("age", d.age), ("address", d.address), ("is_active", d.is_active),
    ("percentage_range_id", d.percentage_range_id), ("created_id", adminId)]

/-- Screens a protected view can show. -/
inductive Screen where
  | loading
  | error (message : String)
  | page

/-- Result of rendering a protected view: a `Navigate` element, or a screen
together with the requests of the effects React runs after this render. -/
inductive Rendered where
  | navigate (target : String)
  | view (screen : Screen) (requests : List Request)

/-- The requests a render gives rise to. -/
def Rendered.requests : Rendered → List Request
  | .navigate _ => []
  | .view _ rs => rs

/-- The screen of a render, if one is shown. -/
def Rendered.screen : Rendered → Option Screen
  | .navigate _ => none
  | .view s _ => some s

/-- Strict equality `a === b` on primitives. Arrays and objects compare by
identity, which values do not carry: they are taken as never identical, so
record ids are meant to be primitives. -/
def JsVal.strictEq : JsVal → JsVal → Bool
  | .undefined, .undefined => true
  | .null, .null => true
  | .bool a, .bool b => a == b
  | .num a, .num b => a == b
  | .str a, .str b => a == b
  | _, _ => false

/-- Array spread `[...v]`: the items of an array, the characters of a string,
a `TypeError` otherwise. -/
def JsVal.spread : JsVal → Except String (List JsVal)
  | .arr items => .ok items
  | .str s => .ok (s.data.map (fun c => JsVal.str (String.singleton c)))
  | _ => .error "students is not iterable"

/-- The callback loop of `students.filter((s) => s.id !== id)` over the items. -/
def keepOthers (id : JsVal) : List JsVal → Except String (List JsVal)
  | [] => .ok []
  | s :: rest =>
    match s.getProp "id" with
    | .error e => .error e
    | .ok sid =>
      match keepOthers id rest with
      | .error e => .error e
      | .ok kept => .ok (if sid.strictEq id then kept else s :: kept)

/-- The call `students.filter((s) => s.id !== id)`. -/
def JsVal.filterOthers (students id : JsVal) : Except String JsVal :=
  match students with
  | .arr items =>
    match keepOthers id items with
    | .ok kept => .ok (.arr kept)
    | .error e => .error e
  | .undefined => .error "Cannot read properties of undefined (reading filter)"
  | .null => .error "Cannot read properties of null (reading filter)"
  | _ => .error "students.filter is not a function"

/-! ## Dashboard.jsx -/

namespace Dashboard

/-- Component state of `Dashboard`. -/
structure State where
  students : JsVal
  percentages : JsVal
  newStudent : StudentDraft
  loading : Bool
  error : Option String

/-- The `useState` initial values. -/
def State.initial : State :=
  { students := .arr [], percentages := .arr [], newStudent := StudentDraft.blank,
    loading := true, error := none }

/-- The request of `fetchStudents`. -/
def studentsRequest (base : String) (store : Store) : Request :=
  { method := "GET", url := base ++ "student/all", headers := [bearer store], body := .empty }

/-- The request of `fetchPercentages`. -/
def percentagesRequest (base : String) (store : Store) : Request :=
  { method := "GET", url := base ++ "percentage/", headers := [bearer store], body := .empty }

/-- The request of `handleAdd`. -/
def addRequest (base : String) (store : Store) (d : StudentDraft) : Request :=
  { method := "POST"
    url := base ++ "student"
    headers := [("Content-Type", "application/json"), bearer store]
    body := .json (d.payload (JsVal.ofEntry store.admin_id)) }

/-- The request of `handleDelete`. -/
def deleteRequest (base : String) (store : Store) (id : JsVal) : Request :=
  { method := "DELETE", url := base ++ "student/delete/" ++ id.toStr, headers := [bearer store],
    body := .empty }

/-- The component body up to its `return`: the guard, then the screen. `run`
says whether React runs the two effects after this render (on the first
render, and again when `token` changed). -/
def render (base : String) (store : Store) (st : State) (run : Bool) : Rendered :=
  let username := JsVal.ofEntry store.username
  let token := JsVal.ofEntry store.access_token
  if username.falsy || token.falsy then .navigate "/login"
  else
    let requests := if run then [studentsRequest base store, percentagesRequest base store] else []
    if st.loading then .view .loading requests
    else
      match st.error with
      | some message => if message != "" then .view (.error message) requests
                        else .view .page requests
      | none => .view .page requests

/-- The logout handler. -/
def handleLogout (st : State) (store : Store) : Outcome State :=
  { state := st
    store := { store with access_token := none, username := none }
    effects := [.navigate "/login"] }

/-- The `catch` and `finally` blocks of `fetchStudents`. -/
def fetchStudentsFailed (st : State) (store : Store) (sofar : List Effect)
    (message : String) : Outcome State :=
  { state := { st with error := some message, loading := false }
    store := store
    effects := sofar ++
      [.consoleError "Error fetching students:", .swal "error" "Error" (.str message),
       .setLoading false] }

/-- The effect body `fetchStudents`. On 401 the logout runs once the dialog
is acknowledged, after the `finally` block. -/
def fetchStudents (base : String) (st : State) (resp : FetchResult) (store : Store) :
    Outcome State :=
  let sofar : List Effect := [.fetch (studentsRequest base store)]
  match resp with
  | .rejected message => fetchStudentsFailed st store sofar message
  | .response status body =>
    if status = 401 then
      let st1 : State := { st with loading := false }
      let out := handleLogout st1 store
      { out with effects := sofar ++
          [.swal "warning" "Session Expired" (.str "Please login again."), .setLoading false]
          ++ out.effects }
    else if !statusOk status then fetchStudentsFailed st store sofar "Failed to fetch students"
    else
      match body with
      | .error message => fetchStudentsFailed st store sofar message
      | .ok data =>
        { state := { st with students := data, loading := false }
          store := store
          effects := sofar ++ [.setLoading false] }

/-- The effect body `fetchPercentages`. -/
def fetchPercentages (base : String) (st : State) (resp : FetchResult) (store : Store) :
    Outcome State :=
  let sofar : List Effect := [.fetch (percentagesRequest base store)]
  let failed : Outcome State :=
    { state := st, store := store,
      effects := sofar ++ [.consoleError "Error fetching percentages:"] }
  match resp with
  | .rejected _ => failed
  | .response status body =>
    if !statusOk status then failed
    else
      match body with
      | .error _ => failed
      | .ok data => { state := { st with percentages := data }, store := store, effects := sofar }

/-- The `catch` block of `handleAdd`. -/
def addFailed (st : State) (store : Store) (sofar : List Effect) (message : String) :
    Outcome State :=
  { state := st, store := store,
    effects := sofar ++ [.consoleError "Error adding student:", .swal "error" "Error" (.str message)] }

/-- The click handler of "Add Student". -/
def handleAdd (base : String) (st : State) (resp : FetchResult) (store : Store) :
    Outcome State :=
  if st.newStudent.incomplete then
    { state := st, store := store,
      effects := [.swal "warning" "Missing Fields"
        (.str "Please fill all fields before adding a student.")] }
  else
    let sofar : List Effect := [.fetch (addRequest base store st.newStudent)]
    match resp with
    | .rejected message => addFailed st store sofar message
    | .response status body =>
      if status = 401 then
        let out := handleLogout st store
        { out with effects := sofar ++
            [.swal "error" "Authentication Failed" (.str "Please login again.")] ++ out.effects }
      else if !statusOk status then
        match body with
        | .error message => addFailed st store sofar message
        | .ok errData =>
          match errData.getProp "detail" with
          | .error message => addFailed st store sofar message
          | .ok detail =>
            addFailed st store sofar (detail.or (.str "Failed to save student")).toStr
      else
        match body with
        | .error message => addFailed st store sofar message
        | .ok savedStudent =>
          match st.students.spread with
          | .error message => addFailed st store sofar message
          | .ok items =>
            let st1 : State :=
              { st with students := .arr (items ++ [savedStudent]),
                        newStudent := StudentDraft.blank }
            match savedStudent.getProp "name" with
            | .error message => addFailed st1 store sofar message
            | .ok name =>
              { state := st1, store := store,
                effects := sofar ++
                  [.swal "success" "Student Added!"
                    (.str (name.toStr ++ " has been added successfully."))] }

/-- The `catch` block of `handleDelete`. -/
def deleteFailed (st : State) (store : Store) (sofar : List Effect) (message : String) :
    Outcome State :=
  { state := st, store := store,
    effects := sofar ++
      [.consoleError "Error deleting student:", .swal "error" "Error" (.str message)] }

/-- The click handler of the delete control; `confirmed` is `result.isConfirmed`
of the confirmation dialog. -/
def handleDelete (base : String) (st : State) (id : JsVal) (confirmed : Bool)
    (resp : FetchResult) (store : Store) : Outcome State :=
  let asked : List Effect :=
    [.swal "warning" "Are you sure?" (.str "This action cannot be undone!")]
  if !confirmed then { state := st, store := store, effects := asked }
  else
    let sofar : List Effect := asked ++ [.fetch (deleteRequest base store id)]
    match resp with
    | .rejected message => deleteFailed st store sofar message
    | .response status body =>
      if status = 401 then
        let out := handleLogout st store
        { out with effects := sofar ++
            [.swal "error" "Authentication Failed" (.str "Please login again.")] ++ out.effects }
      else if !statusOk status then
        match body with
        | .error message => deleteFailed st store sofar message
        | .ok errData =>
          match errData.getProp "detail" with
          | .error message => deleteFailed st store sofar message
          | .ok detail =>
            deleteFailed st store sofar (detail.or (.str "Failed to delete student")).toStr
      else
        match st.students.filterOthers id with
        | .error message => deleteFailed st store sofar message
        | .ok kept =>
          { state := { st with students := kept }, store := store,
            effects := sofar ++
              [.swal "success" "Deleted!" (.str "Student has been deleted successfully.")] }

end Dashboard

/-! ## EditStudent.jsx -/

namespace EditStudent

/-- Component state of `EditStudent`. -/
structure State where
  student : StudentDraft
  percentages : JsVal
  loading : Bool
  error : Option String

/-- The `useState` initial values. -/
def State.initial : State :=
  { student := StudentDraft.blank, percentages := .arr [], loading := true, error := none }

/-- The request of `fetchStudent`; `id` is the route parameter. -/
def studentRequest (base id : String) (store : Store) : Request :=
  { method := "GET", url := base ++ "student/" ++ id, headers := [bearer store], body := .empty }

/-- The request of `fetchPercentages`: no headers are passed. -/
def percentagesRequest (base : String) : Request :=
  { method := "GET", url := base ++ "percentage/", headers := [], body := .empty }

/-- The request of `handleSubmit`. -/
def updateRequest (base id : String) (store : Store) (d : StudentDraft) : Request :=
  { method := "PUT"
    url := base ++ "student/update/" ++ id
    headers := [("Content-Type", "application/json"), bearer store]
    body := .json (d.payload (JsVal.ofEntry store.admin_id)) }

/-- The component body up to its `return`: the guard, then the screen. `mount`
marks the first render (both effects run); `changed` marks a later render
whose `id`, `token` or `navigate` differ (the student fetch runs again). -/
def render (base id : String) (store : Store) (st : State) (mount changed : Bool) : Rendered :=
  let token := JsVal.ofEntry store.access_token
  if token.falsy then .navigate "/login"
  else
    let requests :=
      (if mount || changed then [studentRequest base id store] else [])
      ++ (if mount then [percentagesRequest base] else [])
    if st.loading then .view .loading requests
    else
      match st.error with
      | some message => if message != "" then .view (.error message) requests
                        else .view .page requests
      | none => .view .page requests

/-- The `catch` and `finally` blocks of `fetchStudent`. -/
def fetchStudentFailed (st : State) (store : Store) (sofar : List Effect)
    (message : String) : Outcome State :=
  { state := { st with error := some message, loading := false }
    store := store
    effects := sofar ++
      [.consoleError "Error fetching student:", .swal "error" "Error" (.str message),
       .setLoading false] }

/-- The optional chain `data.percentage_range?.id`. -/
def percentageRangeId (data : JsVal) : Except String JsVal :=
  match data.getProp "percentage_range" with
  | .error e => .error e
  | .ok .undefined => .ok .undefined
  | .ok .null => .ok .undefined
  | .ok range => range.getProp "id"

/-- The mapping of a fetched record into the draft. -/
def toDraft (data : JsVal) : Except String StudentDraft := do
  let name ← data.getProp "name"
  let age ← data.getProp "age"
  let address ← data.getProp "address"
  let active ← data.getProp "is_active"
  let rid ← percentageRangeId data
  pure { name := name, age := age, address := address, is_active := active,
         percentage_range_id := rid.or (.num 0) }

/-- The effect body `fetchStudent`. -/
def fetchStudent (base id : String) (st : State) (resp : FetchResult) (store : Store) :
    Outcome State :=
  let sofar : List Effect := [.fetch (studentRequest base id store)]
  match resp with
  | .rejected message => fetchStudentFailed st store sofar message
  | .response status body =>
    if status = 401 then
      { state := { st with loading := false }
        store := store
        effects := sofar ++
          [.swal "warning" "Session Expired"
             (.str "Your session has expired. Please login again."),
           .navigate "/login", .setLoading false] }
    else if !statusOk status then fetchStudentFailed st store sofar "Failed to fetch student"
    else
      match body with
      | .error message => fetchStudentFailed st store sofar message
      | .ok data =>
        match toDraft data with
        | .error message => fetchStudentFailed st store sofar message
        | .ok draft =>
          { state := { st with student := draft, loading := false }
            store := store
            effects := sofar ++ [.setLoading false] }

/-- The effect body `fetchPercentages`. -/
def fetchPercentages (base : String) (st : State) (resp : FetchResult) (store : Store) :
    Outcome State :=
  let sofar : List Effect := [.fetch (percentagesRequest base)]
  let failed : Outcome State :=
    { state := st, store := store,
      effects := sofar ++ [.consoleError "Error fetching percentages:"] }
  match resp with
  | .rejected _ => failed
  | .response status body =>
    if !statusOk status then failed
    else
      match body with
      | .error _ => failed
      | .ok data => { state := { st with percentages := data }, store := store, effects := sofar }

/-- The `catch` block of `handleSubmit`. -/
def submitFailed (st : State) (store : Store) (sofar : List Effect) (message : String) :
    Outcome State :=
  { state := st, store := store,
    effects := sofar ++
      [.consoleError "Error updating student:", .swal "error" "Error" (.str message)] }

/-- The submit handler of the edit form. -/
def handleSubmit (base id : String) (st : State) (resp : FetchResult) (store : Store) :
    Outcome State :=
  if st.student.incomplete then
    { state := st, store := store,
      effects := [.swal "warning" "Incomplete Data" (.str "Please fill all fields")] }
  else
    let sofar : List Effect := [.fetch (updateRequest base id store st.student)]
    match resp with
    | .rejected message => submitFailed st store sofar message
    | .response status body =>
      if status = 401 then
        { state := st, store := store,
          effects := sofar ++
            [.swal "warning" "Session Expired"
               (.str "Your session has expired. Please login again."),
             .navigate "/login"] }
      else if !statusOk status then
        match body with
        | .error message => submitFailed st store sofar message
        | .ok errData =>
          match errData.getProp "detail" with
          | .error message => submitFailed st store sofar message
          | .ok detail =>
            submitFailed st store sofar (detail.or (.str "Failed to update student")).toStr
      else
        { state := st, store := store,
          effects := sofar ++
            [.swal "success" "Success!" (.str "Student updated successfully."),
             .navigate "/dashboard"] }

end EditStudent

/-! ## Session predicates and sample data -/

/-- No session value is held: token, admin id and display name are all absent. -/
def Store.sessionAbsent (s : Store) : Prop :=
  s.access_token = none ∧ s.admin_id = none ∧ s.username = none

/-- All session values are held: token, admin id and display name. -/
def Store.sessionPresent (s : Store) : Prop :=
  s.access_token.isSome = true ∧ s.admin_id.isSome = true ∧ s.username.isSome = true

instance (s : Store) : Decidable s.sessionAbsent := by
  unfold Store.sessionAbsent; infer_instance

instance (s : Store) : Decidable s.sessionPresent := by
  unfold Store.sessionPresent; infer_instance

/-- A login response body with the three session fields as strings. -/
def loginBody (t a u : String) : JsVal :=
  .obj [("access_token", .str t), ("admin_id", .str a), ("username", .str u)]

/-- The login form of the scenario: admin / secret. -/
def adminForm : Login.State :=
  { formData := { username := "admin", password := "secret" }, loading := false }

/-- The store after a login that returned token abc, admin id 1, name admin
at clock 0. -/
def adminStore : Store :=
  { access_token := some "abc", admin_id := some "1", token_expiry := some "86400000",
    username := some "admin" }

/-- A complete draft, as typed into the Dashboard form. -/
def sampleDraft : StudentDraft :=
  { name := .str "Asha", age := .str "21", address := .str "12 Hill Road",
    is_active := .bool true, percentage_range_id := .str "2" }

/-- A Dashboard state holding one student and a complete draft. -/
def sampleDashboard : Dashboard.State :=
  { students := .arr [.obj [("id", .num 4), ("name", .str "Ravi")]], percentages := .arr [],
    newStudent := sampleDraft, loading := false, error := none }

/-- An EditStudent state holding a complete draft. -/
def sampleEdit : EditStudent.State :=
  { student := sampleDraft, percentages := .arr [], loading := false, error := none }

/-- The session-affecting steps of the client, each with the inputs of the
handler it runs. -/
inductive SessionStep where
  | login (base : String) (now : Nat) (st : Login.State) (resp : FetchResult)
  | logout (st : Dashboard.State)
  | dashboardStudents (base : String) (st : Dashboard.State) (resp : FetchResult)
  | dashboardAdd (base : String) (st : Dashboard.State) (resp : FetchResult)
  | dashboardDelete (base : String) (st : Dashboard.State) (id : JsVal) (confirmed : Bool)
      (resp : FetchResult)
  | editFetch (base id : String) (st : EditStudent.State) (resp : FetchResult)
  | editSubmit (base id : String) (st : EditStudent.State) (resp : FetchResult)

/-- The store after one step. -/
def SessionStep.apply (store : Store) : SessionStep → Store
  | .login base now st resp => (Login.handleSubmit base now st resp store).store
  | .logout st => (Dashboard.handleLogout st store).store
  | .dashboardStudents base st resp => (Dashboard.fetchStudents base st resp store).store
  | .dashboardAdd base st resp => (Dashboard.handleAdd base st resp store).store
  | .dashboardDelete base st id confirmed resp =>
    (Dashboard.handleDelete base st id confirmed resp store).store
  | .editFetch base id st resp => (EditStudent.fetchStudent base id st resp store).store
  | .editSubmit base id st resp => (EditStudent.handleSubmit base id st resp store).store

/-- The store after a sequence of steps, from the empty store. -/
def runSteps (steps : List SessionStep) : Store :=
  steps.foldl SessionStep.apply Store.empty

/-! ## Edit and delete controls of a Dashboard row -/

/-- The method call `v.toString()`: a `TypeError` on `null` and `undefined` and
on an object whose own `toString` field (never a function in parsed data)
shadows the method; the string conversion otherwise. -/
def JsVal.callToString (v : JsVal) : Except String String :=
  match v with
  | .undefined => .error "Cannot read properties of undefined (reading toString)"
  | .null => .error "Cannot read properties of null (reading toString)"
  | .obj fields =>
    match fields.lookup "toString" with
    | some _ => .error "s.admin.id.toString is not a function"
    | none => .ok v.toStr
  | _ => .ok v.toStr

/-- The chain `s.admin?.id.toString()` of a table row: `undefined` when the
record has no admin reference, the text of the admin id otherwise. -/
def Dashboard.ownerIdText (s : JsVal) : Except String JsVal :=
  match s.getProp "admin" with
  | .error e => .error e
  | .ok .undefined => .ok .undefined
  | .ok .null => .ok .undefined
  | .ok admin =>
    match admin.getProp "id" with
    | .error e => .error e
    | .ok idv =>
      match idv.callToString with
      | .error e => .error e
      | .ok text => .ok (.str text)

/-- The `disabled` attribute of the edit button and of the delete button of
a row: `s.admin?.id.toString() !== adminId`. -/
def Dashboard.controlDisabled (store : Store) (s : JsVal) : Except String Bool :=
  match Dashboard.ownerIdText s with
  | .error e => .error e
  | .ok owner => .ok (!owner.strictEq (JsVal.ofEntry store.admin_id))

/-- The value of `s.id` for an item of the student list (`undefined` where the
read is not possible). -/
def idOf (s : JsVal) : JsVal :=
  match s.getProp "id" with
  | .ok v => v
  | .error _ => .undefined

/-- A store with the token cookie only, as in a freshly opened tab. -/
def freshTabStore : Store :=
  { access_token := some "abc", admin_id := some "1", token_expiry := some "86400000",
    username := none }

/-- The texts of the dialogs among a list of effects. -/
def swalTextsOf : List Effect → List JsVal
  | [] => []
  | .swal _ _ text :: rest => text :: swalTextsOf rest
  | _ :: rest => swalTextsOf rest

/-- A Dashboard state holding two students, ids 4 and 5. -/
def twoStudents : Dashboard.State :=
  { students := .arr [.obj [("id", .num 4), ("name", .str "Ravi")],
      .obj [("id", .num 5), ("name", .str "Asha")]],
    percentages := .arr [], newStudent := StudentDraft.blank, loading := false, error := none }

/-- A fetched student whose percentage range reference carries a null id. -/
def studentWithNullRangeId : JsVal :=
  .obj [("id", .num 4), ("name", .str "Ravi"), ("age", .num 21),
    ("address", .str "12 Hill Road"), ("is_active", .bool true),
    ("percentage_range", .obj [("id", .null), ("percentage_range", .str "60-70")])]

/-- A fetched student whose percentage range reference has id 2. -/
def studentWithRange : JsVal :=
  .obj [("id", .num 4), ("name", .str "Ravi"), ("age", .num 21),
    ("address", .str "12 Hill Road"), ("is_active", .bool true),
    ("percentage_range", .obj [("id", .num 2), ("percentage_range", .str "60-70")])]

/-- A listed student owned by the admin with id 1. -/
def ownedStudent : JsVal :=
  .obj [("id", .num 4), ("name", .str "Ravi"),
    ("admin", .obj [("id", .num 1), ("username", .str "admin")])]

/-! ## Theorems -/

/-- C1. With token cookie, admin id cookie and stored display name all absent,
rendering Dashboard and rendering EditStudent both return the redirect to
/login; the render shows no screen and gives rise to no request. -/
theorem guard_redirects_without_session (base id : String) (store : Store)
    (dst : Dashboard.State) (est : EditStudent.State) (run mount changed : Bool)
    (ht : store.access_token = none) (ha : store.admin_id = none)
    (hu : store.username = none) :
    Dashboard.render base store dst run = .navigate "/login" ∧
    EditStudent.render base id store est mount changed = .navigate "/login" ∧
    (Dashboard.render base store dst run).screen = none ∧
    (Dashboard.render base store dst run).requests = [] ∧
    (EditStudent.render base id store est mount changed).screen = none ∧
    (EditStudent.render base id store est mount changed).requests = [] := by
  have _ := ha
  have hd : Dashboard.render base store dst run = .navigate "/login" := by
    simp [Dashboard.render, ht, hu, JsVal.ofEntry, JsVal.falsy, JsVal.truthy]
  have he : EditStudent.render base id store est mount changed = .navigate "/login" := by
    simp [EditStudent.render, ht, JsVal.ofEntry, JsVal.falsy, JsVal.truthy]
  rw [hd, he]
  simp [Rendered.screen, Rendered.requests]

/-- C1 witness: the empty store, first render of both views. -/
theorem guard_redirects_without_session_witness :
    Dashboard.render "" Store.empty Dashboard.State.initial true = .navigate "/login" ∧
    EditStudent.render "" "7" Store.empty EditStudent.State.initial true false
      = .navigate "/login" ∧
    (Dashboard.render "" Store.empty Dashboard.State.initial true).screen = none ∧
    (Dashboard.render "" Store.empty Dashboard.State.initial true).requests = [] ∧
    (EditStudent.render "" "7" Store.empty EditStudent.State.initial true false).screen
      = none ∧
    (EditStudent.render "" "7" Store.empty EditStudent.State.initial true false).requests
      = [] :=
  guard_redirects_without_session "" "7" Store.empty Dashboard.State.initial
    EditStudent.State.initial true true false rfl rfl rfl

/-- C2. When the login response is 2xx and its body carries access_token t,
admin_id a and username u, the store afterwards holds token t, admin id a and
display name u, and the handler navigates to /dashboard (and nowhere else). -/
theorem login_success_saves_session (base : String) (now : Nat) (st : Login.State)
    (status : Nat) (data : JsVal) (store : Store) (t a u : String)
    (hok : statusOk status = true)
    (ht : data.getProp "access_token" = .ok (.str t))
    (ha : data.getProp "admin_id" = .ok (.str a))
    (hu : data.getProp "username" = .ok (.str u)) :
    (Login.handleSubmit base now st (.response status (.ok data)) store).store.access_token
      = some t ∧
    (Login.handleSubmit base now st (.response status (.ok data)) store).store.admin_id
      = some a ∧
    (Login.handleSubmit base now st (.response status (.ok data)) store).store.username
      = some u ∧
    navigationsOf (Login.handleSubmit base now st (.response status (.ok data)) store).effects
      = ["/dashboard"] := by
  simp [Login.handleSubmit, hok, ht, ha, hu, JsVal.toStr, navigationsOf]

/-- C2 witness: status 200 with token abc, admin id 1, name admin. -/
theorem login_success_saves_session_witness :
    (Login.handleSubmit "" 0 adminForm (.response 200 (.ok (loginBody "abc" "1" "admin")))
      Store.empty).store.access_token = some "abc" ∧
    (Login.handleSubmit "" 0 adminForm (.response 200 (.ok (loginBody "abc" "1" "admin")))
      Store.empty).store.admin_id = some "1" ∧
    (Login.handleSubmit "" 0 adminForm (.response 200 (.ok (loginBody "abc" "1" "admin")))
      Store.empty).store.username = some "admin" ∧
    navigationsOf (Login.handleSubmit "" 0 adminForm
      (.response 200 (.ok (loginBody "abc" "1" "admin"))) Store.empty).effects
      = ["/dashboard"] :=
  login_success_saves_session "" 0 adminForm 200 (loginBody "abc" "1" "admin") Store.empty
    "abc" "1" "admin" (by decide) rfl rfl rfl

/-- C3. When the login response status is not 2xx (401 included), whatever the
body, the store after the handler equals the store before it (token, admin id,
display name, expiry) and the handler performs no navigation. -/
theorem login_failure_keeps_store (base : String) (now : Nat) (st : Login.State)
    (status : Nat) (body : Except String JsVal) (store : Store)
    (hbad : statusOk status = false) :
    (Login.handleSubmit base now st (.response status body) store).store = store ∧
    navigationsOf (Login.handleSubmit base now st (.response status body) store).effects
      = [] := by
  cases body with
  | error e => simp [Login.handleSubmit, Login.failed, navigationsOf]
  | ok data =>
    cases hd : data.getProp "detail" with
    | error e => simp [Login.handleSubmit, hbad, hd, Login.failed, navigationsOf]
    | ok detail => simp [Login.handleSubmit, hbad, hd, navigationsOf]

/-- C3 witness: a 401 answer with a detail message, on a store left by an
earlier login. -/
theorem login_failure_keeps_store_witness :
    (Login.handleSubmit "" 5 adminForm
      (.response 401 (.ok (.obj [("detail", .str "Incorrect username or password")])))
      adminStore).store = adminStore ∧
    navigationsOf (Login.handleSubmit "" 5 adminForm
      (.response 401 (.ok (.obj [("detail", .str "Incorrect username or password")])))
      adminStore).effects = [] :=
  login_failure_keeps_store "" 5 adminForm 401
    (.ok (.obj [("detail", .str "Incorrect username or password")])) adminStore (by decide)

/-- C4 as stated fails: a 2xx login whose body carries the three fields with an
empty username leaves a store on which the next Dashboard render redirects. -/
theorem login_empty_username_then_dashboard_redirects :
    statusOk 200 = true ∧
    (Login.handleSubmit "" 0 adminForm (.response 200 (.ok (loginBody "abc" "1" "")))
      Store.empty).store.sessionPresent ∧
    Dashboard.render ""
      (Login.handleSubmit "" 0 adminForm (.response 200 (.ok (loginBody "abc" "1" "")))
        Store.empty).store
      Dashboard.State.initial true = .navigate "/login" := by
  refine ⟨by decide, by decide, ?_⟩
  rfl

/-- C4 amended. After a 2xx login whose body carries access_token t, admin_id a
and username u, all three session values are held in the store; if t is not
empty the next EditStudent render shows a screen instead of redirecting, and
if t and u are both not empty the next Dashboard render does so too. -/
theorem login_success_then_guard_passes (base : String) (now : Nat) (st : Login.State)
    (status : Nat) (data : JsVal) (store : Store) (t a u : String)
    (hok : statusOk status = true)
    (ht : data.getProp "access_token" = .ok (.str t))
    (ha : data.getProp "admin_id" = .ok (.str a))
    (hu : data.getProp "username" = .ok (.str u)) :
    (Login.handleSubmit base now st (.response status (.ok data)) store).store.sessionPresent ∧
    (t ≠ "" → ∀ (id : String) (est : EditStudent.State) (mount changed : Bool),
      ∃ screen requests,
        EditStudent.render base id
          (Login.handleSubmit base now st (.response status (.ok data)) store).store
          est mount changed = .view screen requests) ∧
    (t ≠ "" → u ≠ "" → ∀ (dst : Dashboard.State) (run : Bool),
      ∃ screen requests,
        Dashboard.render base
          (Login.handleSubmit base now st (.response status (.ok data)) store).store
          dst run = .view screen requests) := by
  have hs : (Login.handleSubmit base now st (.response status (.ok data)) store).store
      = { access_token := some t, admin_id := some a,
          token_expiry := some (toString (now + 24 * 60 * 60 * 1000)), username := some u } := by
    simp [Login.handleSubmit, hok, ht, ha, hu, JsVal.toStr]
  rw [hs]
  refine ⟨by simp [Store.sessionPresent], ?_, ?_⟩
  · intro htne id est mount changed
    simp only [EditStudent.render, JsVal.ofEntry, JsVal.falsy, JsVal.truthy]
    have : (t != "") = true := by simpa using htne
    simp only [this, Bool.not_true, Bool.false_eq_true, if_false]
    split
    · exact ⟨_, _, rfl⟩
    · split
      · split
        · exact ⟨_, _, rfl⟩
        · exact ⟨_, _, rfl⟩
      · exact ⟨_, _, rfl⟩
  · intro htne hune dst run
    simp only [Dashboard.render, JsVal.ofEntry, JsVal.falsy, JsVal.truthy]
    have h1 : (t != "") = true := by simpa using htne
    have h2 : (u != "") = true := by simpa using hune
    simp only [h1, h2, Bool.not_true, Bool.or_self, Bool.false_eq_true, if_false]
    split
    · exact ⟨_, _, rfl⟩
    · split
      · split
        · exact ⟨_, _, rfl⟩
        · exact ⟨_, _, rfl⟩
      · exact ⟨_, _, rfl⟩

/-- C4 amended, witness: the scenario login (abc, 1, admin) followed by the
first render of either protected view. -/
theorem login_success_then_guard_passes_witness :
    (Login.handleSubmit "" 0 adminForm (.response 200 (.ok (loginBody "abc" "1" "admin")))
      Store.empty).store.sessionPresent ∧
    (∃ screen requests,
      EditStudent.render "" "7"
        (Login.handleSubmit "" 0 adminForm (.response 200 (.ok (loginBody "abc" "1" "admin")))
          Store.empty).store
        EditStudent.State.initial true false = .view screen requests) ∧
    (∃ screen requests,
      Dashboard.render ""
        (Login.handleSubmit "" 0 adminForm (.response 200 (.ok (loginBody "abc" "1" "admin")))
          Store.empty).store
        Dashboard.State.initial true = .view screen requests) :=
  have h := login_success_then_guard_passes "" 0 adminForm 200 (loginBody "abc" "1" "admin")
    Store.empty "abc" "1" "admin" (by decide) rfl rfl rfl
  ⟨h.1, h.2.1 (by decide) "7" EditStudent.State.initial true false,
    h.2.2 (by decide) (by decide) Dashboard.State.initial true⟩

/-- C5 as stated fails: a 401 answer to the Dashboard percentage-range fetch
leaves the store as it was and performs no navigation. -/
theorem dashboard_percentages_401_not_cleared :
    (Dashboard.fetchPercentages "" sampleDashboard (.response 401 (.ok .null)) adminStore).store
      = adminStore ∧
    navigationsOf (Dashboard.fetchPercentages "" sampleDashboard (.response 401 (.ok .null))
      adminStore).effects = [] ∧
    ¬ ((Dashboard.fetchPercentages "" sampleDashboard (.response 401 (.ok .null))
          adminStore).store.sessionAbsent ∧
       navigationsOf (Dashboard.fetchPercentages "" sampleDashboard (.response 401 (.ok .null))
          adminStore).effects = ["/login"]) := by
  refine ⟨rfl, rfl, ?_⟩
  intro h
  exact absurd h.2 (by decide)

/-- C5 amended. For every Dashboard state, draft included, a 401 answer to the
students-list fetch or to a confirmed delete request removes the token cookie
and the stored display name and navigates to /login; so does a 401 answer to
the create request, which is issued when the draft is complete; a 401 answer
to the percentage-range fetch changes neither the store nor the route. -/
theorem dashboard_401_logs_out (base : String) (st : Dashboard.State) (id : JsVal)
    (body : Except String JsVal) (store : Store) :
    ((Dashboard.fetchStudents base st (.response 401 body) store).store.access_token = none ∧
     (Dashboard.fetchStudents base st (.response 401 body) store).store.username = none ∧
     navigationsOf (Dashboard.fetchStudents base st (.response 401 body) store).effects
       = ["/login"]) ∧
    (st.newStudent.incomplete = false →
     (Dashboard.handleAdd base st (.response 401 body) store).store.access_token = none ∧
     (Dashboard.handleAdd base st (.response 401 body) store).store.username = none ∧
     navigationsOf (Dashboard.handleAdd base st (.response 401 body) store).effects
       = ["/login"]) ∧
    ((Dashboard.handleDelete base st id true (.response 401 body) store).store.access_token
       = none ∧
     (Dashboard.handleDelete base st id true (.response 401 body) store).store.username
       = none ∧
     navigationsOf (Dashboard.handleDelete base st id true (.response 401 body) store).effects
       = ["/login"]) ∧
    ((Dashboard.fetchPercentages base st (.response 401 body) store).store = store ∧
     navigationsOf (Dashboard.fetchPercentages base st (.response 401 body) store).effects
       = []) := by
  refine ⟨?_, ?_, ?_, ?_⟩
  · simp [Dashboard.fetchStudents, Dashboard.handleLogout, navigationsOf]
  · intro hdraft
    simp [Dashboard.handleAdd, hdraft, Dashboard.handleLogout, navigationsOf]
  · simp [Dashboard.handleDelete, Dashboard.handleLogout, navigationsOf]
  · have h401 : statusOk 401 = false := by decide
    simp [Dashboard.fetchPercentages, h401, navigationsOf]

/-- C5 amended, witness: the students-list fetch at mount (blank draft), and a
401 on the create request of the complete sample draft. -/
theorem dashboard_401_logs_out_witness :
    ((Dashboard.fetchStudents "" Dashboard.State.initial (.response 401 (.ok .null))
        adminStore).store.access_token = none ∧
     (Dashboard.fetchStudents "" Dashboard.State.initial (.response 401 (.ok .null))
        adminStore).store.username = none ∧
     navigationsOf (Dashboard.fetchStudents "" Dashboard.State.initial
        (.response 401 (.ok .null)) adminStore).effects = ["/login"]) ∧
    sampleDashboard.newStudent.incomplete = false ∧
    (Dashboard.handleAdd "" sampleDashboard (.response 401 (.ok .null)) adminStore).store.access_token
      = none ∧
    (Dashboard.handleAdd "" sampleDashboard (.response 401 (.ok .null)) adminStore).store.username
      = none ∧
    navigationsOf (Dashboard.handleAdd "" sampleDashboard (.response 401 (.ok .null))
      adminStore).effects = ["/login"] :=
  ⟨(dashboard_401_logs_out "" Dashboard.State.initial (.num 4) (.ok .null) adminStore).1,
   rfl,
   (dashboard_401_logs_out "" sampleDashboard (.num 4) (.ok .null) adminStore).2.1 rfl⟩

/-- C6, what the code does: a 401 answer to the EditStudent student fetch or to
its update request navigates to /login and leaves the store exactly as it was,
so after a login the token, admin id and display name are all still held. -/
theorem editstudent_401_leaves_store (base id : String) (st : EditStudent.State)
    (body : Except String JsVal) (store : Store) :
    (EditStudent.fetchStudent base id st (.response 401 body) store).store = store ∧
    navigationsOf (EditStudent.fetchStudent base id st (.response 401 body) store).effects
      = ["/login"] ∧
    (EditStudent.handleSubmit base id st (.response 401 body) store).store = store ∧
    navigationsOf (EditStudent.handleSubmit "" "4" sampleEdit (.response 401 (.ok .null))
      adminStore).effects = ["/login"] ∧
    (EditStudent.handleSubmit "" "4" sampleEdit (.response 401 (.ok .null))
      adminStore).store.sessionPresent := by
  refine ⟨?_, ?_, ?_, rfl, by decide⟩
  · simp [EditStudent.fetchStudent]
  · simp [EditStudent.fetchStudent, navigationsOf]
  · unfold EditStudent.handleSubmit
    split
    · rfl
    · simp

/-- C7, what the code does: for every store, handleLogout removes the token
cookie and the stored display name and navigates to /login, but the admin id
cookie (and the expiry cookie) stay as they were; after a login the session
values are therefore not all absent. -/
theorem logout_keeps_admin_id (st : Dashboard.State) (store : Store) :
    (Dashboard.handleLogout st store).store.access_token = none ∧
    (Dashboard.handleLogout st store).store.username = none ∧
    navigationsOf (Dashboard.handleLogout st store).effects = ["/login"] ∧
    (Dashboard.handleLogout st store).store.admin_id = store.admin_id ∧
    (Dashboard.handleLogout st store).store.token_expiry = store.token_expiry ∧
    (Dashboard.handleLogout sampleDashboard adminStore).store.admin_id = some "1" ∧
    ¬ (Dashboard.handleLogout sampleDashboard adminStore).store.sessionAbsent := by
  refine ⟨rfl, rfl, rfl, rfl, rfl, rfl, by decide⟩

/-- C8, what the code does: a successful login followed by a logout reaches,
from the empty store, a store with the admin id held and the token and the
display name absent: neither all present nor all absent. -/
theorem login_then_logout_mixed_session :
    (runSteps [.login "" 0 adminForm (.response 200 (.ok (loginBody "abc" "1" "admin"))),
        .logout sampleDashboard]).access_token = none ∧
    (runSteps [.login "" 0 adminForm (.response 200 (.ok (loginBody "abc" "1" "admin"))),
        .logout sampleDashboard]).username = none ∧
    (runSteps [.login "" 0 adminForm (.response 200 (.ok (loginBody "abc" "1" "admin"))),
        .logout sampleDashboard]).admin_id = some "1" ∧
    ¬ ((runSteps [.login "" 0 adminForm (.response 200 (.ok (loginBody "abc" "1" "admin"))),
          .logout sampleDashboard]).sessionPresent ∨
       (runSteps [.login "" 0 adminForm (.response 200 (.ok (loginBody "abc" "1" "admin"))),
          .logout sampleDashboard]).sessionAbsent) := by
  refine ⟨rfl, rfl, rfl, by decide⟩

/-- C9. When the new-student draft lacks a name, an age, an address or a
percentage range (the field is the empty string, or the range is still the
initial 0), handleAdd issues no request and returns the component state
unchanged: same student list, same draft. -/
theorem add_incomplete_draft_no_request (base : String) (st : Dashboard.State)
    (resp : FetchResult) (store : Store)
    (hmissing : st.newStudent.name = .str "" ∨ st.newStudent.age = .str "" ∨
      st.newStudent.address = .str "" ∨ st.newStudent.percentage_range_id = .str "" ∨
      st.newStudent.percentage_range_id = .num 0) :
    requestsOf (Dashboard.handleAdd base st resp store).effects = [] ∧
    (Dashboard.handleAdd base st resp store).state = st ∧
    (Dashboard.handleAdd base st resp store).state.students = st.students ∧
    (Dashboard.handleAdd base st resp store).state.newStudent = st.newStudent := by
  have hinc : st.newStudent.incomplete = true := by
    unfold StudentDraft.incomplete
    rcases hmissing with h | h | h | h | h <;>
      simp [h, JsVal.falsy, JsVal.truthy]
  simp [Dashboard.handleAdd, hinc, requestsOf]

/-- C9 witness: the initial Dashboard state, whose draft is blank. -/
theorem add_incomplete_draft_no_request_witness :
    requestsOf (Dashboard.handleAdd "" Dashboard.State.initial (.response 201 (.ok .null))
      adminStore).effects = [] ∧
    (Dashboard.handleAdd "" Dashboard.State.initial (.response 201 (.ok .null))
      adminStore).state = Dashboard.State.initial ∧
    (Dashboard.handleAdd "" Dashboard.State.initial (.response 201 (.ok .null))
      adminStore).state.students = Dashboard.State.initial.students ∧
    (Dashboard.handleAdd "" Dashboard.State.initial (.response 201 (.ok .null))
      adminStore).state.newStudent = Dashboard.State.initial.newStudent :=
  add_incomplete_draft_no_request "" Dashboard.State.initial (.response 201 (.ok .null))
    adminStore (Or.inl rfl)

/-- C10. Register.handleSubmit either finds the password equal to its
confirmation and at least 6 code units long and issues exactly the POST to the
admin endpoint, or finds otherwise and stops with a single alert: no request,
no write of the loading flag, state unchanged. A form with password and
confirmation abc12 issues no request. -/
theorem register_submit_guard (base : String) (st : Register.State) (resp : FetchResult)
    (store : Store) :
    (((st.formData.password = st.formData.confirmPassword ∧
        6 ≤ jsLength st.formData.password) ∧
      requestsOf (Register.handleSubmit base st resp store).effects
        = [Register.request base st.formData] ∧
      (Register.request base st.formData).method = "POST" ∧
      (Register.request base st.formData).url = base ++ "admin") ∨
    (¬ (st.formData.password = st.formData.confirmPassword ∧
        6 ≤ jsLength st.formData.password) ∧
      requestsOf (Register.handleSubmit base st resp store).effects = [] ∧
      loadingWritesOf (Register.handleSubmit base st resp store).effects = [] ∧
      (Register.handleSubmit base st resp store).state = st ∧
      ∃ message, (Register.handleSubmit base st resp store).effects = [.alert message])) ∧
    (∀ username email : String, ∀ show1 show2 busy : Bool,
      requestsOf (Register.handleSubmit base
        { formData := { username := username, email := email, password := "abc12",
                        confirmPassword := "abc12" },
          showPassword := show1, showConfirmPassword := show2, loading := busy }
        resp store).effects = []) := by
  refine ⟨?_, ?_⟩
  · by_cases hpw : st.formData.password = st.formData.confirmPassword
    · by_cases hlen : jsLength st.formData.password < 6
      · right
        refine ⟨fun h => absurd h.2 (by omega), ?_⟩
        unfold Register.handleSubmit
        rw [if_neg (by simpa using hpw), if_pos hlen]
        simp [requestsOf, loadingWritesOf]
      · left
        refine ⟨⟨hpw, by omega⟩, ?_, rfl, rfl⟩
        unfold Register.handleSubmit
        rw [if_neg (by simpa using hpw), if_neg hlen]
        cases resp with
        | rejected m => simp [Register.failed, requestsOf]
        | response status body =>
          cases body with
          | error e => simp [Register.failed, requestsOf]
          | ok data =>
            by_cases hok : statusOk status = true
            · simp [hok, requestsOf]
            · cases hd : data.getProp "detail" with
              | error e => simp [hok, hd, Register.failed, requestsOf]
              | ok detail => simp [hok, hd, requestsOf]
    · right
      refine ⟨fun h => hpw h.1, ?_⟩
      simp [Register.handleSubmit, hpw, requestsOf, loadingWritesOf]
  · intro username email show1 show2 busy
    have hlen : jsLength "abc12" < 6 := by decide
    simp [Register.handleSubmit, hlen, requestsOf]

/-- C11. When the delete confirmation is declined, handleDelete issues no
request (so no DELETE call) and returns the component state, the student list
in particular, and the store as they were. -/
theorem delete_declined_no_request (base : String) (st : Dashboard.State) (id : JsVal)
    (resp : FetchResult) (store : Store) :
    requestsOf (Dashboard.handleDelete base st id false resp store).effects = [] ∧
    (Dashboard.handleDelete base st id false resp store).state = st ∧
    (Dashboard.handleDelete base st id false resp store).state.students = st.students ∧
    (Dashboard.handleDelete base st id false resp store).store = store := by
  simp [Dashboard.handleDelete, requestsOf]

/-- A store in which a held token cookie comes with a held admin id cookie. -/
theorem login_keeps_admin_with_token (base : String) (now : Nat) (st : Login.State)
    (resp : FetchResult) (store : Store)
    (h : store.access_token.isSome = true → store.admin_id.isSome = true) :
    (Login.handleSubmit base now st resp store).store.access_token.isSome = true →
    (Login.handleSubmit base now st resp store).store.admin_id.isSome = true := by
  unfold Login.handleSubmit
  cases resp with
  | rejected m => simpa [Login.failed] using h
  | response status body =>
    cases body with
    | error e => simpa [Login.failed] using h
    | ok data =>
      by_cases hok : statusOk status = true
      · cases data <;> simp [hok, JsVal.getProp, Login.failed] <;> exact h
      · cases hd : data.getProp "detail" with
        | error e => simpa [hok, hd, Login.failed] using h
        | ok detail => simpa [hok, hd] using h

/-- The Dashboard handlers leave the store as it was or run handleLogout on it. -/
theorem dashboard_store_kept_or_logged_out (base : String) (st : Dashboard.State) (id : JsVal)
    (confirmed : Bool) (resp : FetchResult) (store : Store) :
    ((Dashboard.fetchStudents base st resp store).store = store ∨
      (Dashboard.fetchStudents base st resp store).store.access_token = none) ∧
    ((Dashboard.handleAdd base st resp store).store = store ∨
      (Dashboard.handleAdd base st resp store).store.access_token = none) ∧
    ((Dashboard.handleDelete base st id confirmed resp store).store = store ∨
      (Dashboard.handleDelete base st id confirmed resp store).store.access_token = none) := by
  refine ⟨?_, ?_, ?_⟩
  · unfold Dashboard.fetchStudents
    cases resp with
    | rejected m => simp [Dashboard.fetchStudentsFailed]
    | response status body =>
      by_cases h401 : status = 401
      · simp [h401, Dashboard.handleLogout]
      · by_cases hok : statusOk status = true
        · cases body <;> simp [h401, hok, Dashboard.fetchStudentsFailed]
        · simp [h401, hok, Dashboard.fetchStudentsFailed]
  · unfold Dashboard.handleAdd
    by_cases hinc : st.newStudent.incomplete = true
    · simp [hinc]
    · simp only [hinc, Bool.false_eq_true, if_false]
      cases resp with
      | rejected m => simp [Dashboard.addFailed]
      | response status body =>
        by_cases h401 : status = 401
        · simp [h401, Dashboard.handleLogout]
        · by_cases hok : statusOk status = true
          · cases body with
            | error e => simp [h401, hok, Dashboard.addFailed]
            | ok saved =>
              cases hsp : st.students.spread with
              | error e => simp [h401, hok, hsp, Dashboard.addFailed]
              | ok items =>
                cases hn : saved.getProp "name" with
                | error e => simp [h401, hok, hsp, hn, Dashboard.addFailed]
                | ok name => simp [h401, hok, hsp, hn]
          · cases body with
            | error e => simp [h401, hok, Dashboard.addFailed]
            | ok errData =>
              cases hd : errData.getProp "detail" with
              | error e => simp [h401, hok, hd, Dashboard.addFailed]
              | ok detail => simp [h401, hok, hd, Dashboard.addFailed]
  · unfold Dashboard.handleDelete
    cases confirmed with
    | false => simp
    | true =>
      simp only [Bool.not_true, Bool.false_eq_true, if_false]
      cases resp with
      | rejected m => simp [Dashboard.deleteFailed]
      | response status body =>
        by_cases h401 : status = 401
        · simp [h401, Dashboard.handleLogout]
        · by_cases hok : statusOk status = true
          · cases hf : st.students.filterOthers id with
            | error e => simp [h401, hok, hf, Dashboard.deleteFailed]
            | ok kept => simp [h401, hok, hf]
          · cases body with
            | error e => simp [h401, hok, Dashboard.deleteFailed]
            | ok errData =>
              cases hd : errData.getProp "detail" with
              | error e => simp [h401, hok, hd, Dashboard.deleteFailed]
              | ok detail => simp [h401, hok, hd, Dashboard.deleteFailed]

/-- The EditStudent handlers never write the store. -/
theorem editstudent_store_kept (base id : String) (st : EditStudent.State)
    (resp : FetchResult) (store : Store) :
    (EditStudent.fetchStudent base id st resp store).store = store ∧
    (EditStudent.handleSubmit base id st resp store).store = store := by
  refine ⟨?_, ?_⟩
  · unfold EditStudent.fetchStudent
    cases resp with
    | rejected m => simp [EditStudent.fetchStudentFailed]
    | response status body =>
      by_cases h401 : status = 401
      · simp [h401]
      · by_cases hok : statusOk status = true
        · cases body with
          | error e => simp [h401, hok, EditStudent.fetchStudentFailed]
          | ok data =>
            cases hd : EditStudent.toDraft data with
            | error e => simp [h401, hok, hd, EditStudent.fetchStudentFailed]
            | ok draft => simp [h401, hok, hd]
        · simp [h401, hok, EditStudent.fetchStudentFailed]
  · unfold EditStudent.handleSubmit
    by_cases hinc : st.student.incomplete = true
    · simp [hinc]
    · simp only [hinc, Bool.false_eq_true, if_false]
      cases resp with
      | rejected m => simp [EditStudent.submitFailed]
      | response status body =>
        by_cases h401 : status = 401
        · simp [h401]
        · by_cases hok : statusOk status = true
          · simp [h401, hok]
          · cases body with
            | error e => simp [h401, hok, EditStudent.submitFailed]
            | ok errData =>
              cases hd : errData.getProp "detail" with
              | error e => simp [h401, hok, hd, EditStudent.submitFailed]
              | ok detail => simp [h401, hok, hd, EditStudent.submitFailed]

/-- One session step keeps: a held token cookie comes with a held admin id. -/
theorem step_keeps_admin_with_token (step : SessionStep) (store : Store)
    (h : store.access_token.isSome = true → store.admin_id.isSome = true) :
    (SessionStep.apply store step).access_token.isSome = true →
    (SessionStep.apply store step).admin_id.isSome = true := by
  cases step with
  | login base now st resp => exact login_keeps_admin_with_token base now st resp store h
  | logout st => simp [SessionStep.apply, Dashboard.handleLogout]
  | dashboardStudents base st resp =>
    rcases (dashboard_store_kept_or_logged_out base st .null true resp store).1 with e | e
    · simpa [SessionStep.apply, e] using h
    · simp [SessionStep.apply, e]
  | dashboardAdd base st resp =>
    rcases (dashboard_store_kept_or_logged_out base st .null true resp store).2.1 with e | e
    · simpa [SessionStep.apply, e] using h
    · simp [SessionStep.apply, e]
  | dashboardDelete base st id confirmed resp =>
    rcases (dashboard_store_kept_or_logged_out base st id confirmed resp store).2.2 with e | e
    · simpa [SessionStep.apply, e] using h
    · simp [SessionStep.apply, e]
  | editFetch base id st resp =>
    simpa [SessionStep.apply, (editstudent_store_kept base id st resp store).1] using h
  | editSubmit base id st resp =>
    simpa [SessionStep.apply, (editstudent_store_kept base id st resp store).2] using h

/-- In every store reached from the empty store by session steps, a held token
cookie comes with a held admin id cookie. -/
theorem reachable_token_has_admin (steps : List SessionStep) :
    (runSteps steps).access_token.isSome = true → (runSteps steps).admin_id.isSome = true := by
  have hgen : ∀ (l : List SessionStep) (s0 : Store),
      (s0.access_token.isSome = true → s0.admin_id.isSome = true) →
      ((l.foldl SessionStep.apply s0).access_token.isSome = true →
        (l.foldl SessionStep.apply s0).admin_id.isSome = true) := by
    intro l
    induction l with
    | nil => intro s0 h0; simpa using h0
    | cons step rest ih =>
      intro s0 h0
      simp only [List.foldl_cons]
      exact ih _ (step_keeps_admin_with_token step s0 h0)
  exact hgen steps Store.empty (by simp [Store.empty])

/-- An enabled control means equal ids, or both sides undefined. -/
theorem control_enabled_cases (store : Store) (s : JsVal)
    (h : Dashboard.controlDisabled store s = .ok false) :
    (store.admin_id = none ∧ Dashboard.ownerIdText s = .ok .undefined) ∨
    (∃ v, store.admin_id = some v ∧ Dashboard.ownerIdText s = .ok (.str v)) := by
  unfold Dashboard.controlDisabled at h
  cases ho : Dashboard.ownerIdText s with
  | error e => simp [ho] at h
  | ok owner =>
    simp only [ho, Except.ok.injEq, Bool.not_eq_false_eq_eq_true, Bool.not_eq_false] at h
    cases hadm : store.admin_id with
    | none =>
      left
      refine ⟨rfl, ?_⟩
      rw [hadm] at h
      cases owner <;> simp_all [JsVal.ofEntry, JsVal.strictEq]
    | some v =>
      right
      refine ⟨v, rfl, ?_⟩
      rw [hadm] at h
      cases owner <;> simp_all [JsVal.ofEntry, JsVal.strictEq]

/-- C12. On every store the client can reach from the empty store by its
session steps, whenever the Dashboard renders instead of redirecting: the
admin id cookie is held (an absent cookie never comes with a rendered row); an
enabled edit or delete control means the text of the record's admin id equals
the cookie; and a record with no admin reference has its controls disabled. -/
theorem controls_enabled_only_for_owner (base : String) (steps : List SessionStep)
    (st : Dashboard.State) (run : Bool) (s : JsVal)
    (hview : Dashboard.render base (runSteps steps) st run ≠ .navigate "/login") :
    (∃ v, (runSteps steps).admin_id = some v) ∧
    (Dashboard.controlDisabled (runSteps steps) s = .ok false →
      ∃ v, (runSteps steps).admin_id = some v ∧ Dashboard.ownerIdText s = .ok (.str v)) ∧
    (Dashboard.ownerIdText s = .ok .undefined →
      Dashboard.controlDisabled (runSteps steps) s = .ok true) := by
  have htok : (runSteps steps).access_token.isSome = true := by
    cases ht : (runSteps steps).access_token with
    | some t => rfl
    | none =>
      exfalso
      apply hview
      simp [Dashboard.render, ht, JsVal.ofEntry, JsVal.falsy, JsVal.truthy]
  have hadm := reachable_token_has_admin steps htok
  obtain ⟨v, hv⟩ := Option.isSome_iff_exists.mp hadm
  refine ⟨⟨v, hv⟩, ?_, ?_⟩
  · intro hen
    rcases control_enabled_cases _ s hen with ⟨hnone, _⟩ | hsome
    · rw [hv] at hnone
      exact absurd hnone (by simp)
    · exact hsome
  · intro hown
    simp [Dashboard.controlDisabled, hown, hv, JsVal.ofEntry, JsVal.strictEq]

/-- C12 witness: after the scenario login, the row of a student owned by admin
1 has its controls enabled and the ids agree. -/
theorem controls_enabled_only_for_owner_witness :
    ∃ v, (runSteps [.login "" 0 adminForm
        (.response 200 (.ok (loginBody "abc" "1" "admin")))]).admin_id = some v ∧
      Dashboard.ownerIdText ownedStudent = .ok (.str v) :=
  (controls_enabled_only_for_owner ""
    [.login "" 0 adminForm (.response 200 (.ok (loginBody "abc" "1" "admin")))]
    Dashboard.State.initial true ownedStudent
    (by
      have hr : Dashboard.render ""
          (runSteps [.login "" 0 adminForm
            (.response 200 (.ok (loginBody "abc" "1" "admin")))])
          Dashboard.State.initial true
          = .view .loading
              [Dashboard.studentsRequest "" adminStore,
               Dashboard.percentagesRequest "" adminStore] := rfl
      rw [hr]
      simp)).2.1 rfl

/-- C13. For an EditStudent draft and a Dashboard draft with the same name, age,
address and percentage_range_id, EditStudent.handleSubmit issues no request
exactly when Dashboard.handleAdd issues none; when it rejects it neither calls
the network nor navigates, and otherwise its single request is a PUT to
student/update/id whose body object holds the five draft fields and created_id
set to the admin id read from the cookie. -/
theorem edit_submit_validates_like_add (base id : String) (est : EditStudent.State)
    (dst : Dashboard.State) (respE respD : FetchResult) (store : Store)
    (hname : dst.newStudent.name = est.student.name)
    (hage : dst.newStudent.age = est.student.age)
    (haddress : dst.newStudent.address = est.student.address)
    (hrange : dst.newStudent.percentage_range_id = est.student.percentage_range_id) :
    (requestsOf (EditStudent.handleSubmit base id est respE store).effects = [] ↔
      requestsOf (Dashboard.handleAdd base dst respD store).effects = []) ∧
    ((requestsOf (EditStudent.handleSubmit base id est respE store).effects = [] ∧
        navigationsOf (EditStudent.handleSubmit base id est respE store).effects = []) ∨
     (requestsOf (EditStudent.handleSubmit base id est respE store).effects
        = [{ method := "PUT"
             url := base ++ "student/update/" ++ id
             headers := [("Content-Type", "application/json"), bearer store]
             body := .json (.obj [("name", est.student.name), ("age", est.student.age),
               ("address", est.student.address), ("is_active", est.student.is_active),
               ("percentage_range_id", est.student.percentage_range_id),
               ("created_id", JsVal.ofEntry store.admin_id)]) }])) := by
  have hsame : dst.newStudent.incomplete = est.student.incomplete := by
    simp [StudentDraft.incomplete, hname, hage, haddress, hrange]
  have hE : ∀ b : Bool, est.student.incomplete = b →
      (requestsOf (EditStudent.handleSubmit base id est respE store).effects = [] ↔ b = true) ∧
      (b = true → navigationsOf (EditStudent.handleSubmit base id est respE store).effects = []) ∧
      (b = false → requestsOf (EditStudent.handleSubmit base id est respE store).effects
        = [EditStudent.updateRequest base id store est.student]) := by
    intro b hb
    cases b with
    | true => simp [EditStudent.handleSubmit, hb, requestsOf, navigationsOf]
    | false =>
      unfold EditStudent.handleSubmit
      simp only [hb, Bool.false_eq_true, if_false]
      cases respE with
      | rejected m => simp [EditStudent.submitFailed, requestsOf]
      | response status body =>
        by_cases h401 : status = 401
        · simp [h401, requestsOf]
        · by_cases hok : statusOk status = true
          · simp [h401, hok, requestsOf]
          · cases body with
            | error e => simp [h401, hok, EditStudent.submitFailed, requestsOf]
            | ok errData =>
              cases hd : errData.getProp "detail" with
              | error e => simp [h401, hok, hd, EditStudent.submitFailed, requestsOf]
              | ok detail => simp [h401, hok, hd, EditStudent.submitFailed, requestsOf]
  have hD : ∀ b : Bool, dst.newStudent.incomplete = b →
      (requestsOf (Dashboard.handleAdd base dst respD store).effects = [] ↔ b = true) := by
    intro b hb
    cases b with
    | true => simp [Dashboard.handleAdd, hb, requestsOf]
    | false =>
      unfold Dashboard.handleAdd
      simp only [hb, Bool.false_eq_true, if_false]
      cases respD with
      | rejected m => simp [Dashboard.addFailed, requestsOf]
      | response status body =>
        by_cases h401 : status = 401
        · simp [h401, Dashboard.handleLogout, requestsOf]
        · by_cases hok : statusOk status = true
          · cases body with
            | error e => simp [h401, hok, Dashboard.addFailed, requestsOf]
            | ok saved =>
              cases hsp : dst.students.spread with
              | error e => simp [h401, hok, hsp, Dashboard.addFailed, requestsOf]
              | ok items =>
                cases hn : saved.getProp "name" with
                | error e => simp [h401, hok, hsp, hn, Dashboard.addFailed, requestsOf]
                | ok name => simp [h401, hok, hsp, hn, requestsOf]
          · cases body with
            | error e => simp [h401, hok, Dashboard.addFailed, requestsOf]
            | ok errData =>
              cases hd : errData.getProp "detail" with
              | error e => simp [h401, hok, hd, Dashboard.addFailed, requestsOf]
              | ok detail => simp [h401, hok, hd, Dashboard.addFailed, requestsOf]
  obtain ⟨hE1, hE2, hE3⟩ := hE est.student.incomplete rfl
  have hD1 := hD est.student.incomplete hsame
  refine ⟨hE1.trans hD1.symm, ?_⟩
  cases hinc : est.student.incomplete with
  | true => exact Or.inl ⟨hE1.mpr hinc, hE2 hinc⟩
  | false =>
    right
    rw [hE3 hinc]
    rfl

/-- C13 witness: the same complete draft in both views. -/
theorem edit_submit_validates_like_add_witness :
    (requestsOf (EditStudent.handleSubmit "" "4" sampleEdit (.response 200 (.ok .null))
        adminStore).effects = [] ↔
      requestsOf (Dashboard.handleAdd "" sampleDashboard (.response 201 (.ok .null))
        adminStore).effects = []) :=
  (edit_submit_validates_like_add "" "4" sampleEdit sampleDashboard
    (.response 200 (.ok .null)) (.response 201 (.ok .null)) adminStore rfl rfl rfl rfl).1

/-- C14, what the code does: the percentage-range request of EditStudent is
sent without any header, also when a token is held, while the one of Dashboard
and the student list, single student, create, update and delete requests carry
Authorization: Bearer token; login and registration carry no such header. -/
theorem editstudent_percentages_without_bearer (base id : String) (store : Store)
    (d : StudentDraft) (sid : JsVal) (st : EditStudent.State) (resp : FetchResult)
    (lf : Login.FormData) (rf : Register.FormData) :
    (EditStudent.percentagesRequest base).headers = [] ∧
    requestsOf (EditStudent.fetchPercentages base st resp store).effects
      = [EditStudent.percentagesRequest base] ∧
    bearer adminStore = ("Authorization", "Bearer abc") ∧
    bearer store ∈ (Dashboard.percentagesRequest base store).headers ∧
    bearer store ∈ (Dashboard.studentsRequest base store).headers ∧
    bearer store ∈ (EditStudent.studentRequest base id store).headers ∧
    bearer store ∈ (Dashboard.addRequest base store d).headers ∧
    bearer store ∈ (EditStudent.updateRequest base id store d).headers ∧
    bearer store ∈ (Dashboard.deleteRequest base store sid).headers ∧
    (Login.request base lf).headers.lookup "Authorization" = none ∧
    (Register.request base rf).headers.lookup "Authorization" = none := by
  refine ⟨rfl, ?_, rfl, ?_, ?_, ?_, ?_, ?_, ?_, rfl, rfl⟩
  · unfold EditStudent.fetchPercentages
    cases resp with
    | rejected m => simp [requestsOf]
    | response status body =>
      by_cases hok : statusOk status = true
      · cases body with
        | error e => simp [hok, requestsOf]
        | ok data => simp [hok, requestsOf]
      · simp [hok, requestsOf]
  all_goals simp [Dashboard.percentagesRequest, Dashboard.studentsRequest,
    EditStudent.studentRequest, Dashboard.addRequest, EditStudent.updateRequest,
    Dashboard.deleteRequest]

/-- C15 as stated fails: a 500 answer to the create request whose body is not
JSON surfaces the message of the failed body read, which is neither a server
detail nor the generic text. -/
theorem add_rejected_unreadable_body_message :
    statusOk 500 = false ∧
    swalTextsOf (Dashboard.handleAdd "" sampleDashboard
      (.response 500 (.error "Unexpected token < in JSON at position 0")) adminStore).effects
      = [.str "Unexpected token < in JSON at position 0"] ∧
    swalTextsOf (Dashboard.handleAdd "" sampleDashboard
      (.response 500 (.error "Unexpected token < in JSON at position 0")) adminStore).effects
      ≠ [.str "Failed to save student"] := by
  refine ⟨by decide, rfl, ?_⟩
  have h : swalTextsOf (Dashboard.handleAdd "" sampleDashboard
      (.response 500 (.error "Unexpected token < in JSON at position 0")) adminStore).effects
      = [.str "Unexpected token < in JSON at position 0"] := rfl
  rw [h]
  simp

/-- C15 amended. When a confirmed delete request, whatever the draft, or a
create request, issued for a complete draft, is answered with a status that is
neither 2xx nor 401, the component state (student list, draft) and the store
are returned unchanged. The one error dialog shows the text of the detail of
the JSON error body when that detail is truthy, the generic text (Failed to
save student, Failed to delete student) when the JSON body has none, and the
message of the failed read when the body cannot be read as JSON or is null. -/
theorem rejected_request_keeps_state (base : String) (st : Dashboard.State) (id : JsVal)
    (status : Nat) (body : Except String JsVal) (store : Store)
    (hnot401 : status ≠ 401) (hbad : statusOk status = false) :
    ((Dashboard.handleDelete base st id true (.response status body) store).state = st ∧
     (Dashboard.handleDelete base st id true (.response status body) store).store = store) ∧
    (st.newStudent.incomplete = false →
     (Dashboard.handleAdd base st (.response status body) store).state = st ∧
     (Dashboard.handleAdd base st (.response status body) store).store = store) ∧
    (∀ errData detail, body = .ok errData → errData.getProp "detail" = .ok detail →
      swalTextsOf (Dashboard.handleDelete base st id true (.response status body) store).effects
        = [.str "This action cannot be undone!",
           .str (if detail.truthy then detail.toStr else "Failed to delete student")] ∧
      (st.newStudent.incomplete = false →
        swalTextsOf (Dashboard.handleAdd base st (.response status body) store).effects
          = [.str (if detail.truthy then detail.toStr else "Failed to save student")])) ∧
    (∀ errData message, body = .ok errData → errData.getProp "detail" = .error message →
      swalTextsOf (Dashboard.handleDelete base st id true (.response status body) store).effects
        = [.str "This action cannot be undone!", .str message] ∧
      (st.newStudent.incomplete = false →
        swalTextsOf (Dashboard.handleAdd base st (.response status body) store).effects
          = [.str message])) ∧
    (∀ message, body = .error message →
      swalTextsOf (Dashboard.handleDelete base st id true (.response status body) store).effects
        = [.str "This action cannot be undone!", .str message] ∧
      (st.newStudent.incomplete = false →
        swalTextsOf (Dashboard.handleAdd base st (.response status body) store).effects
          = [.str message])) := by
  refine ⟨?_, ?_, ?_, ?_, ?_⟩
  · cases body with
    | error e => simp [Dashboard.handleDelete, hnot401, hbad, Dashboard.deleteFailed]
    | ok errData =>
      cases hd : errData.getProp "detail" with
      | error e => simp [Dashboard.handleDelete, hnot401, hbad, hd, Dashboard.deleteFailed]
      | ok detail => simp [Dashboard.handleDelete, hnot401, hbad, hd, Dashboard.deleteFailed]
  · intro hdraft
    cases body with
    | error e => simp [Dashboard.handleAdd, hdraft, hnot401, hbad, Dashboard.addFailed]
    | ok errData =>
      cases hd : errData.getProp "detail" with
      | error e => simp [Dashboard.handleAdd, hdraft, hnot401, hbad, hd, Dashboard.addFailed]
      | ok detail => simp [Dashboard.handleAdd, hdraft, hnot401, hbad, hd, Dashboard.addFailed]
  · intro errData detail hb hd
    subst hb
    refine ⟨?_, fun hdraft => ?_⟩
    · by_cases ht : detail.truthy = true
      · simp [Dashboard.handleDelete, hnot401, hbad, hd, Dashboard.deleteFailed, swalTextsOf,
          JsVal.or, ht]
      · simp [Dashboard.handleDelete, hnot401, hbad, hd, Dashboard.deleteFailed, swalTextsOf,
          JsVal.or, ht, JsVal.toStr]
    · by_cases ht : detail.truthy = true
      · simp [Dashboard.handleAdd, hdraft, hnot401, hbad, hd, Dashboard.addFailed, swalTextsOf,
          JsVal.or, ht]
      · simp [Dashboard.handleAdd, hdraft, hnot401, hbad, hd, Dashboard.addFailed, swalTextsOf,
          JsVal.or, ht, JsVal.toStr]
  · intro errData message hb hd
    subst hb
    refine ⟨?_, fun hdraft => ?_⟩
    · simp [Dashboard.handleDelete, hnot401, hbad, hd, Dashboard.deleteFailed, swalTextsOf]
    · simp [Dashboard.handleAdd, hdraft, hnot401, hbad, hd, Dashboard.addFailed, swalTextsOf]
  · intro message hb
    subst hb
    refine ⟨?_, fun hdraft => ?_⟩
    · simp [Dashboard.handleDelete, hnot401, hbad, Dashboard.deleteFailed, swalTextsOf]
    · simp [Dashboard.handleAdd, hdraft, hnot401, hbad, Dashboard.addFailed, swalTextsOf]

/-- C15 amended, witness: a 422 answer with a detail text to a delete clicked
with a blank draft and to the create request of the sample draft. -/
theorem rejected_request_keeps_state_witness :
    ((Dashboard.handleDelete "" twoStudents (.num 4) true
        (.response 422 (.ok (.obj [("detail", .str "Age must be a number")])))
        adminStore).state = twoStudents ∧
     (Dashboard.handleDelete "" twoStudents (.num 4) true
        (.response 422 (.ok (.obj [("detail", .str "Age must be a number")])))
        adminStore).store = adminStore) ∧
    swalTextsOf (Dashboard.handleDelete "" twoStudents (.num 4) true
      (.response 422 (.ok (.obj [("detail", .str "Age must be a number")]))) adminStore).effects
      = [.str "This action cannot be undone!", .str "Age must be a number"] ∧
    swalTextsOf (Dashboard.handleAdd "" sampleDashboard
      (.response 422 (.ok (.obj [("detail", .str "Age must be a number")]))) adminStore).effects
      = [.str "Age must be a number"] :=
  ⟨(rejected_request_keeps_state "" twoStudents (.num 4) 422
      (.ok (.obj [("detail", .str "Age must be a number")])) adminStore
      (by decide) (by decide)).1,
   ((rejected_request_keeps_state "" twoStudents (.num 4) 422
      (.ok (.obj [("detail", .str "Age must be a number")])) adminStore
      (by decide) (by decide)).2.2.1 _ _ rfl rfl).1,
   ((rejected_request_keeps_state "" sampleDashboard (.num 4) 422
      (.ok (.obj [("detail", .str "Age must be a number")])) adminStore
      (by decide) (by decide)).2.2.1 _ _ rfl rfl).2 rfl⟩

/-- A 2xx status is not 401. -/
theorem statusOk_ne_unauthorized (status : Nat) (hok : statusOk status = true) :
    status ≠ 401 := by
  intro h
  subst h
  exact absurd hok (by decide)

/-- C16. With student list L and a complete draft, when the create request is
answered 2xx with record r, handleAdd sets the list to L followed by r (one
item longer, the items of L first and in order, r last), resets the draft to
empty name, age and address, is_active true and percentage_range_id 0, and
the one request it sent is the POST whose body object is the draft plus
created_id set to the admin id read from the cookie. -/
theorem add_success_appends_and_resets (base : String) (st : Dashboard.State) (status : Nat)
    (r : JsVal) (store : Store) (L : List JsVal)
    (hlist : st.students = .arr L) (hdraft : st.newStudent.incomplete = false)
    (hok : statusOk status = true) :
    (Dashboard.handleAdd base st (.response status (.ok r)) store).state.students
      = .arr (L ++ [r]) ∧
    (L ++ [r]).length = L.length + 1 ∧
    (L ++ [r]).take L.length = L ∧
    (L ++ [r]).getLast? = some r ∧
    (Dashboard.handleAdd base st (.response status (.ok r)) store).state.newStudent
      = { name := .str "", age := .str "", address := .str "", is_active := .bool true,
          percentage_range_id := .num 0 } ∧
    requestsOf (Dashboard.handleAdd base st (.response status (.ok r)) store).effects
      = [{ method := "POST"
           url := base ++ "student"
           headers := [("Content-Type", "application/json"), bearer store]
           body := .json (.obj [("name", st.newStudent.name), ("age", st.newStudent.age),
             ("address", st.newStudent.address), ("is_active", st.newStudent.is_active),
             ("percentage_range_id", st.newStudent.percentage_range_id),
             ("created_id", JsVal.ofEntry store.admin_id)]) }] := by
  have h401 : status ≠ 401 := statusOk_ne_unauthorized status hok
  refine ⟨?_, by simp, by simp, by simp, ?_, ?_⟩
  · cases hn : r.getProp "name" with
    | error e =>
      simp [Dashboard.handleAdd, hdraft, h401, hok, hlist, JsVal.spread, hn,
        Dashboard.addFailed]
    | ok name =>
      simp [Dashboard.handleAdd, hdraft, h401, hok, hlist, JsVal.spread, hn]
  · cases hn : r.getProp "name" with
    | error e =>
      simp [Dashboard.handleAdd, hdraft, h401, hok, hlist, JsVal.spread, hn,
        Dashboard.addFailed, StudentDraft.blank]
    | ok name =>
      simp [Dashboard.handleAdd, hdraft, h401, hok, hlist, JsVal.spread, hn,
        StudentDraft.blank]
  · cases hn : r.getProp "name" with
    | error e =>
      simp [Dashboard.handleAdd, hdraft, h401, hok, hlist, JsVal.spread, hn,
        Dashboard.addFailed, requestsOf, Dashboard.addRequest, StudentDraft.payload]
    | ok name =>
      simp [Dashboard.handleAdd, hdraft, h401, hok, hlist, JsVal.spread, hn,
        requestsOf, Dashboard.addRequest, StudentDraft.payload]

/-- C16 witness: the sample Dashboard state and a returned record with id 5. -/
theorem add_success_appends_and_resets_witness :
    (Dashboard.handleAdd "" sampleDashboard
      (.response 201 (.ok (.obj [("id", .num 5), ("name", .str "Asha")]))) adminStore).state.students
      = .arr ([.obj [("id", .num 4), ("name", .str "Ravi")]]
          ++ [.obj [("id", .num 5), ("name", .str "Asha")]]) :=
  (add_success_appends_and_resets "" sampleDashboard 201
    (.obj [("id", .num 5), ("name", .str "Asha")]) adminStore
    [.obj [("id", .num 4), ("name", .str "Ravi")]] rfl rfl (by decide)).1

/-- The filter loop keeps exactly the items whose id is not the given one,
when every item is a record. -/
theorem keepOthers_eq_filter (id : JsVal) (L : List JsVal)
    (hrec : ∀ s ∈ L, ∃ fields, s = .obj fields) :
    keepOthers id L = .ok (L.filter (fun s => !(idOf s).strictEq id)) := by
  induction L with
  | nil => rfl
  | cons s rest ih =>
    obtain ⟨fields, hs⟩ := hrec s (List.mem_cons_self s rest)
    have hrest : ∀ t ∈ rest, ∃ fields, t = .obj fields :=
      fun t ht => hrec t (List.mem_cons_of_mem s ht)
    subst hs
    unfold keepOthers
    rw [ih hrest]
    by_cases heq : ((fields.lookup "id").getD .undefined).strictEq id = true
    · simp [JsVal.getProp, idOf, heq, List.filter]
    · simp [JsVal.getProp, idOf, heq, List.filter]

/-- C17. With student list L (every item a record), a confirmed delete for id
answered 2xx sets the list to the items of L whose id is not strictly equal to
id: no kept item has that id, every other item of L is kept, and the kept
items are in their order in L. -/
theorem delete_success_filters (base : String) (st : Dashboard.State) (id : JsVal)
    (status : Nat) (body : Except String JsVal) (store : Store) (L : List JsVal)
    (hlist : st.students = .arr L) (hrec : ∀ s ∈ L, ∃ fields, s = .obj fields)
    (hok : statusOk status = true) :
    (Dashboard.handleDelete base st id true (.response status body) store).state.students
      = .arr (L.filter (fun s => !(idOf s).strictEq id)) ∧
    (∀ s ∈ L.filter (fun s => !(idOf s).strictEq id), (idOf s).strictEq id = false) ∧
    (∀ s ∈ L, (idOf s).strictEq id = false →
      s ∈ L.filter (fun s => !(idOf s).strictEq id)) ∧
    (L.filter (fun s => !(idOf s).strictEq id)).Sublist L := by
  have h401 : status ≠ 401 := statusOk_ne_unauthorized status hok
  refine ⟨?_, ?_, ?_, List.filter_sublist L⟩
  · simp [Dashboard.handleDelete, h401, hok, hlist, JsVal.filterOthers,
      keepOthers_eq_filter id L hrec]
  · intro s hs
    simpa using (List.mem_filter.mp hs).2
  · intro s hs hne
    exact List.mem_filter.mpr ⟨hs, by simp [hne]⟩

/-- C17 witness: students 4 and 5, delete of id 4 confirmed and answered 200. -/
theorem delete_success_filters_witness :
    (Dashboard.handleDelete "" twoStudents (.num 4) true (.response 200 (.ok .null))
      adminStore).state.students = .arr [.obj [("id", .num 5), ("name", .str "Asha")]] :=
  (delete_success_filters "" twoStudents (.num 4) 200 (.ok .null) adminStore
    [.obj [("id", .num 4), ("name", .str "Ravi")], .obj [("id", .num 5), ("name", .str "Asha")]]
    rfl
    (by
      intro s hs
      simp only [List.mem_cons, List.mem_singleton, List.not_mem_nil, or_false] at hs
      rcases hs with h | h <;> exact ⟨_, h⟩)
    (by decide)).1

/-- C18 as stated fails: for a fetched student whose percentage range reference
is present with a null id, the draft gets percentage_range_id 0, which is not
the id of the reference. -/
theorem fetched_null_range_id_becomes_zero :
    (studentWithNullRangeId.getProp "percentage_range").bind (fun range => range.getProp "id")
      = .ok .null ∧
    (EditStudent.fetchStudent "" "4" EditStudent.State.initial
      (.response 200 (.ok studentWithNullRangeId)) adminStore).state.student.percentage_range_id
      = .num 0 ∧
    (EditStudent.fetchStudent "" "4" EditStudent.State.initial
      (.response 200 (.ok studentWithNullRangeId)) adminStore).state.student.percentage_range_id
      ≠ .null := by
  refine ⟨rfl, rfl, ?_⟩
  have h : (EditStudent.fetchStudent "" "4" EditStudent.State.initial
      (.response 200 (.ok studentWithNullRangeId)) adminStore).state.student.percentage_range_id
      = .num 0 := rfl
  rw [h]
  simp

/-- C18 amended. For a 2xx student response whose body has name, age, address,
is_active and percentage_range readable, the draft takes name, age, address
and is_active unchanged; percentage_range_id is 0 when the reference is absent
(undefined or null), the id of the reference when that id is truthy, and 0
when the reference is present with a falsy id. -/
theorem fetched_student_maps_to_draft (base id : String) (st : EditStudent.State)
    (status : Nat) (data : JsVal) (store : Store) (name age address active range : JsVal)
    (hok : statusOk status = true)
    (hname : data.getProp "name" = .ok name) (hage : data.getProp "age" = .ok age)
    (haddress : data.getProp "address" = .ok address)
    (hactive : data.getProp "is_active" = .ok active)
    (hrange : data.getProp "percentage_range" = .ok range) :
    (EditStudent.fetchStudent base id st (.response status (.ok data)) store).state.student.name
      = name ∧
    (EditStudent.fetchStudent base id st (.response status (.ok data)) store).state.student.age
      = age ∧
    (EditStudent.fetchStudent base id st (.response status (.ok data)) store).state.student.address
      = address ∧
    (EditStudent.fetchStudent base id st (.response status (.ok data)) store).state.student.is_active
      = active ∧
    ((range = .undefined ∨ range = .null) →
      (EditStudent.fetchStudent base id st (.response status (.ok data))
        store).state.student.percentage_range_id = .num 0) ∧
    (∀ idv, range ≠ .undefined → range ≠ .null → range.getProp "id" = .ok idv →
      (EditStudent.fetchStudent base id st (.response status (.ok data))
        store).state.student.percentage_range_id = if idv.truthy then idv else .num 0) := by
  have h401 : status ≠ 401 := statusOk_ne_unauthorized status hok
  have hnullish : (range = .undefined ∨ range = .null) →
      EditStudent.percentageRangeId data = .ok .undefined := by
    intro h
    rcases h with h | h <;> subst h <;> simp [EditStudent.percentageRangeId, hrange]
  have hpresent : ∀ idv, range ≠ .undefined → range ≠ .null → range.getProp "id" = .ok idv →
      EditStudent.percentageRangeId data = .ok idv := by
    intro idv h1 h2 hid
    unfold EditStudent.percentageRangeId
    rw [hrange]
    cases range <;> simp_all
  have hdraft : ∀ rid, EditStudent.percentageRangeId data = .ok rid →
      (EditStudent.fetchStudent base id st (.response status (.ok data)) store).state.student
        = { name := name, age := age, address := address, is_active := active,
            percentage_range_id := rid.or (.num 0) } := by
    intro rid hrid
    simp [EditStudent.fetchStudent, h401, hok, EditStudent.toDraft, hname, hage, haddress,
      hactive, hrid, bind, Except.bind, pure, Except.pure]
  have hsome : ∃ rid, EditStudent.percentageRangeId data = .ok rid := by
    by_cases h : range = .undefined ∨ range = .null
    · exact ⟨_, hnullish h⟩
    · have h1 : range ≠ .undefined := fun e => h (Or.inl e)
      have h2 : range ≠ .null := fun e => h (Or.inr e)
      cases hid : range.getProp "id" with
      | error e => cases range <;> simp_all [JsVal.getProp]
      | ok idv => exact ⟨idv, hpresent idv h1 h2 hid⟩
  obtain ⟨rid, hrid⟩ := hsome
  refine ⟨?_, ?_, ?_, ?_, ?_, ?_⟩
  · rw [hdraft rid hrid]
  · rw [hdraft rid hrid]
  · rw [hdraft rid hrid]
  · rw [hdraft rid hrid]
  · intro h
    rw [hdraft _ (hnullish h)]
    rfl
  · intro idv h1 h2 hid
    rw [hdraft _ (hpresent idv h1 h2 hid)]
    rfl

/-- C18 amended, witness: a fetched student whose range reference has id 2. -/
theorem fetched_student_maps_to_draft_witness :
    (EditStudent.fetchStudent "" "4" EditStudent.State.initial
      (.response 200 (.ok studentWithRange)) adminStore).state.student.name = .str "Ravi" ∧
    (EditStudent.fetchStudent "" "4" EditStudent.State.initial
      (.response 200 (.ok studentWithRange)) adminStore).state.student.percentage_range_id
      = .num 2 :=
  have h := fetched_student_maps_to_draft "" "4" EditStudent.State.initial 200 studentWithRange
    adminStore (.str "Ravi") (.num 21) (.str "12 Hill Road") (.bool true)
    (.obj [("id", .num 2), ("percentage_range", .str "60-70")])
    (by decide) rfl rfl rfl rfl rfl
  ⟨h.1, h.2.2.2.2.2 (.num 2) (by simp) (by simp) rfl⟩

/-- C19. The guards differ: with the token cookie present and no stored display
name, the first EditStudent render shows its loading screen and issues the
student fetch and the percentage-range fetch while Dashboard returns the
redirect to /login; and for every store on which a Dashboard render does not
redirect, no EditStudent render redirects. -/
theorem guards_differ_edit_weaker :
    (freshTabStore.access_token = some "abc" ∧ freshTabStore.username = none ∧
      Dashboard.render "" freshTabStore Dashboard.State.initial true = .navigate "/login" ∧
      EditStudent.render "" "4" freshTabStore EditStudent.State.initial true false
        = .view .loading
            [EditStudent.studentRequest "" "4" freshTabStore,
             EditStudent.percentagesRequest ""]) ∧
    (∀ (base id : String) (store : Store) (dst : Dashboard.State) (est : EditStudent.State)
        (run mount changed : Bool),
      Dashboard.render base store dst run ≠ .navigate "/login" →
      EditStudent.render base id store est mount changed ≠ .navigate "/login") := by
  refine ⟨⟨rfl, rfl, rfl, rfl⟩, ?_⟩
  intro base id store dst est run mount changed hd
  have htok : (JsVal.ofEntry store.access_token).falsy = false := by
    cases h : (JsVal.ofEntry store.access_token).falsy with
    | false => rfl
    | true =>
      exfalso
      apply hd
      simp [Dashboard.render, h]
  unfold EditStudent.render
  simp only [htok, Bool.false_eq_true, if_false]
  split
  · simp
  · split
    · split <;> simp
    · simp

/-- C20. With student list L and a complete draft, after a create request
answered 2xx the returned draft fails the presence test, and handleAdd run
again on the returned state and store issues no request and returns the same
state: the list stays L followed by the created record. -/
theorem add_twice_second_is_blocked (base : String) (st : Dashboard.State) (status : Nat)
    (r : JsVal) (store : Store) (L : List JsVal) (again : FetchResult)
    (hlist : st.students = .arr L) (hdraft : st.newStudent.incomplete = false)
    (hok : statusOk status = true) :
    (Dashboard.handleAdd base st (.response status (.ok r)) store).state.newStudent.incomplete
      = true ∧
    requestsOf (Dashboard.handleAdd base
      (Dashboard.handleAdd base st (.response status (.ok r)) store).state again
      (Dashboard.handleAdd base st (.response status (.ok r)) store).store).effects = [] ∧
    (Dashboard.handleAdd base
      (Dashboard.handleAdd base st (.response status (.ok r)) store).state again
      (Dashboard.handleAdd base st (.response status (.ok r)) store).store).state
      = (Dashboard.handleAdd base st (.response status (.ok r)) store).state ∧
    (Dashboard.handleAdd base
      (Dashboard.handleAdd base st (.response status (.ok r)) store).state again
      (Dashboard.handleAdd base st (.response status (.ok r)) store).store).state.students
      = .arr (L ++ [r]) := by
  have h401 : status ≠ 401 := statusOk_ne_unauthorized status hok
  have hnew : (Dashboard.handleAdd base st (.response status (.ok r)) store).state.newStudent
      = StudentDraft.blank := by
    cases hn : r.getProp "name" with
    | error e =>
      simp [Dashboard.handleAdd, hdraft, h401, hok, hlist, JsVal.spread, hn,
        Dashboard.addFailed]
    | ok name =>
      simp [Dashboard.handleAdd, hdraft, h401, hok, hlist, JsVal.spread, hn]
  have hstud : (Dashboard.handleAdd base st (.response status (.ok r)) store).state.students
      = .arr (L ++ [r]) := by
    cases hn : r.getProp "name" with
    | error e =>
      simp [Dashboard.handleAdd, hdraft, h401, hok, hlist, JsVal.spread, hn,
        Dashboard.addFailed]
    | ok name =>
      simp [Dashboard.handleAdd, hdraft, h401, hok, hlist, JsVal.spread, hn]
  have hinc : (Dashboard.handleAdd base st (.response status (.ok r))
      store).state.newStudent.incomplete = true := by
    rw [hnew]
    rfl
  have hsecond : ∀ (s2 : Dashboard.State) (store2 : Store), s2.newStudent.incomplete = true →
      requestsOf (Dashboard.handleAdd base s2 again store2).effects = [] ∧
      (Dashboard.handleAdd base s2 again store2).state = s2 := by
    intro s2 store2 h2
    simp [Dashboard.handleAdd, h2, requestsOf]
  obtain ⟨h1, h2⟩ := hsecond _
    (Dashboard.handleAdd base st (.response status (.ok r)) store).store hinc
  refine ⟨hinc, h1, h2, ?_⟩
  rw [h2, hstud]

/-- C20 witness: the sample Dashboard state, created record with id 5. -/
theorem add_twice_second_is_blocked_witness :
    requestsOf (Dashboard.handleAdd ""
      (Dashboard.handleAdd "" sampleDashboard
        (.response 201 (.ok (.obj [("id", .num 5), ("name", .str "Asha")]))) adminStore).state
      (.response 201 (.ok (.obj [("id", .num 6), ("name", .str "Asha")])))
      (Dashboard.handleAdd "" sampleDashboard
        (.response 201 (.ok (.obj [("id", .num 5), ("name", .str "Asha")])))
        adminStore).store).effects = [] :=
  (add_twice_second_is_blocked "" sampleDashboard 201
    (.obj [("id", .num 5), ("name", .str "Asha")]) adminStore
    [.obj [("id", .num 4), ("name", .str "Ravi")]]
    (.response 201 (.ok (.obj [("id", .num 6), ("name", .str "Asha")])))
    rfl rfl (by decide)).2.1
